import Mathlib

/-!
Verification development for the u3loop repository (u3bench.c, u3loop.c,
u3loop_defines.h): a shallow embedding of the statistics bookkeeping, the
asynchronous transfer pipeline callback, the drain sequence, the measurement
snapshot, the re-enumeration wait loop, the synchronous loopback cycle, and
the device lookup loop, together with theorems about them.

Machine integers are modelled as `Nat` (the counters only ever increase and
the C types are wide unsigned types), except where signedness matters
(timestamps, libusb return codes), which use `Int`.
-/


namespace U3

/-- Model of `struct timespec` (both fields are signed in C). -/
structure Timespec where
  tv_sec : Int
  tv_nsec : Int
deriving Repr, DecidableEq

/-- Model of `struct stat_counters` (u3bench.c:79, u3loop.c:74): two
`uint64_t` byte counters. -/
structure StatCounters where
  tx_bytes : Nat := 0
  rx_bytes : Nat := 0
deriving Repr, DecidableEq

/-- Model of `struct u3loop_errors` (u3loop_defines.h:118): two `uint32_t`
counts and two `uint32_t` bitmasks. -/
structure U3loopErrors where
  phy_error_cnt : Nat := 0
  ll_error_cnt : Nat := 0
  phy_errors : Nat := 0
  ll_errors : Nat := 0
deriving Repr, DecidableEq

/-- Elapsed time in microseconds between two timespecs, as computed by
`print_measurement` (u3bench.c:195, u3loop.c:213):
`(now.tv_sec - prev.tv_sec) * 1000000 + (now.tv_nsec - prev.tv_nsec) / 1000`
with C signed division (truncation toward zero). -/
def usecDiff (now prev : Timespec) : Int :=
  (now.tv_sec - prev.tv_sec) * 1000000 + Int.tdiv (now.tv_nsec - prev.tv_nsec) 1000

/-- Conversion of the signed microsecond difference to `uint64_t`
(the C code stores it into a `uint64_t` variable). -/
def toU64 (i : Int) : Nat := (i % (2 ^ 64 : Nat)).toNat

/-- A throughput value as printed by the measurement code: `double` variables
are initialised to `INFINITY` and only overwritten with the quotient when the
elapsed-time divisor is nonzero, so no division by zero ever executes.  The
quotient itself is the C `uint64_t` integer division that feeds the `double`. -/
inductive Speed where
  | infinity
  | finite (v : Nat)
deriving Repr, DecidableEq

end U3

namespace U3Bench

/-- The `libusb_transfer_status` values handled by `transfer_cb`
(u3bench.c:376-410). -/
inductive XferStatus where
  | completed
  | error
  | timedOut
  | stall
  | overflow
  | noDevice
  | cancelled
deriving Repr, DecidableEq

/-- Model of `struct host_errors_t` (u3bench.c:69). -/
structure HostErrors where
  data_corrupt : Nat := 0
  error : Nat := 0
  length : Nat := 0
  stall : Nat := 0
  timeout : Nat := 0
  overflow : Nat := 0
deriving Repr, DecidableEq

/-- The all-zero host error record (`memset(&s->host_errors, 0, ...)`). -/
def hostErrorsZero : HostErrors := {}

/-- The all-zero device error record (`memset(&s->dev_errors, 0, ...)`). -/
def devErrorsZero : U3.U3loopErrors := {}

/-- Model of `struct state_t` (u3bench.c:85). -/
structure State where
  start_time : U3.Timespec := ⟨0, 0⟩
  active_transfers : Nat := 0
  ops : Nat := 0
  ctrs : U3.StatCounters := {}
  host_errors : HostErrors := {}
  dev_errors : U3.U3loopErrors := {}
  cum_host_errors : HostErrors := {}
  cum_dev_errors : U3.U3loopErrors := {}
  measurement_time : U3.Timespec := ⟨0, 0⟩
  measurement : U3.StatCounters := {}
deriving Repr, DecidableEq

/-- The zero-initialised run state (`struct state_t state = { 0 }`,
u3bench.c:438). -/
def state0 : State := {}

/-- Constant `LIBUSB_ENDPOINT_DIR_MASK`. -/
def endpointDirMask : Nat := 0x80

/-- Constant `LIBUSB_ENDPOINT_OUT`. -/
def endpointOut : Nat := 0x00

/-- The fields of a `libusb_transfer` that `transfer_cb` reads. -/
structure Transfer where
  endpoint : Nat
  length : Nat
  actual_length : Nat
  status : XferStatus
deriving Repr, DecidableEq

/-- Result of one run of `transfer_cb`: the new statistics state, the new
value of the global `terminate` flag, and whether the transfer was
resubmitted (i.e. `libusb_submit_transfer` was called and returned success,
so `active_transfers` was re-incremented). -/
structure CbResult where
  state : State
  terminate : Bool
  resubmitted : Bool
deriving Repr, DecidableEq

/-- Counter/flag updates of the `switch (transfer->status)` statement of
`transfer_cb` (u3bench.c:376-411), for every status except
`LIBUSB_TRANSFER_CANCELLED` (which returns from the callback early).
Returns the updated state and `terminate` flag. -/
def applyStatus (s : State) (terminate : Bool) (is_tx : Bool) (t : Transfer) :
    State × Bool :=
  match t.status with
  | .completed =>
      let s := { s with ops := s.ops + 1 }
      let s := if t.length ≠ t.actual_length then
          { s with host_errors := { s.host_errors with length := s.host_errors.length + 1 } }
        else s
      let s := if is_tx then
          { s with ctrs := { s.ctrs with tx_bytes := s.ctrs.tx_bytes + t.actual_length } }
        else
          { s with ctrs := { s.ctrs with rx_bytes := s.ctrs.rx_bytes + t.actual_length } }
      (s, terminate)
  | .error =>
      ({ s with host_errors := { s.host_errors with error := s.host_errors.error + 1 } }, terminate)
  | .timedOut =>
      ({ s with host_errors := { s.host_errors with timeout := s.host_errors.timeout + 1 } }, terminate)
  | .stall =>
      ({ s with host_errors := { s.host_errors with stall := s.host_errors.stall + 1 } }, terminate)
  | .overflow =>
      ({ s with host_errors := { s.host_errors with overflow := s.host_errors.overflow + 1 } }, terminate)
  | .noDevice =>
      (s, true)
  | .cancelled =>
      (s, terminate)

/-- Model of `transfer_cb` (u3bench.c:368-418).  `terminate` is the value of
the global termination flag when the callback starts; `submitOk` tells
whether the `libusb_submit_transfer` call in the resubmission step would
succeed (it is only consulted when the code actually reaches that call). -/
def transfer_cb (s0 : State) (terminate : Bool) (t : Transfer) (submitOk : Bool) :
    CbResult :=
  let is_tx : Bool := t.endpoint &&& endpointDirMask == endpointOut
  let s : State := { s0 with active_transfers := s0.active_transfers - 1 }
  if t.status = .cancelled then
    -- "return; // Stop on cancellation of transfer"
    { state := s, terminate := terminate, resubmitted := false }
  else
    let st := applyStatus s terminate is_tx t
    if !st.2 then
      if submitOk then
        { state := { st.1 with active_transfers := st.1.active_transfers + 1 },
          terminate := st.2, resubmitted := true }
      else
        { state := st.1, terminate := st.2, resubmitted := false }
    else
      { state := st.1, terminate := st.2, resubmitted := false }



/-- Constant `BUFFER_CNT` (u3bench.c:52): the configured pool size. -/
def BUFFER_CNT : Nat := 64

/-- One interaction of the asynchronous benchmark with the transport: a
pool-fill submission attempt (u3bench.c:737-739), or a completion delivered
inside the event-processing call and handled by `transfer_cb` together with
the success of its resubmission attempt. -/
inductive Event where
  | fillSubmit (ok : Bool)
  | completion (t : Transfer) (submitOk : Bool)
deriving Repr, DecidableEq

/-- The state threaded through the benchmark main loop: the statistics state
plus the global `terminate` flag. -/
structure Run where
  state : State
  terminate : Bool
deriving Repr, DecidableEq

/-- Program state at the start of the benchmark (zeroed `state`, `terminate`
still false). -/
def run0 : Run := { state := state0, terminate := false }

/-- Effect of one event on the run state.  A successful pool-fill submission
increments `active_transfers` (u3bench.c:737-739, a failed one changes
nothing); a delivered completion runs `transfer_cb`. -/
def stepEvent (r : Run) : Event → Run
  | .fillSubmit ok =>
      if ok then
        { r with state := { r.state with active_transfers := r.state.active_transfers + 1 } }
      else r
  | .completion t ok =>
      let c := transfer_cb r.state r.terminate t ok
      { state := c.state, terminate := c.terminate }

/-- Folding a list of events over the run state. -/
def runEvents (r : Run) : List Event → Run
  | [] => r
  | e :: es => runEvents (stepEvent r e) es

/-- Well-formedness of an event list: a completion can only be delivered
while at least one request is in flight.  `active_transfers` counts exactly
the requests submitted and not yet completed (every successful submission
increments it, every delivered completion decrements it once), so the
transport can only invoke the callback when it is positive. -/
def wfEvents (r : Run) : List Event → Bool
  | [] => true
  | e :: es =>
      (match e with
       | .completion _ _ => decide (0 < r.state.active_transfers)
       | .fillSubmit _ => true) && wfEvents (stepEvent r e) es

/-- Number of successful submission attempts in an event list (pool-fill
submissions; resubmissions inside completions are counted by the completion
step itself). -/
def countFillOk : List Event → Nat
  | [] => 0
  | .fillSubmit true :: es => countFillOk es + 1
  | _ :: es => countFillOk es

/-- Recogniser for completion events. -/
def isCompletionEvent : Event → Bool
  | .completion _ _ => true
  | .fillSubmit _ => false


/-- The part of claim C4 saying that `active_request_count` reaches zero only
during or after drain, formalised over the event model: once the whole pool
has been filled by 64 successful submissions, any well-formed sequence of
delivered completions (drain has not begun) leaves `active_transfers`
nonzero. -/
def pipelineNeverIdleBeforeDrain : Prop :=
  ∀ comps : List Event, comps.all isCompletionEvent = true →
    wfEvents run0 (List.replicate BUFFER_CNT (Event.fillSubmit true) ++ comps) = true →
    (runEvents run0
        (List.replicate BUFFER_CNT (Event.fillSubmit true) ++ comps)).state.active_transfers
      ≠ 0

/-- Sum of `actual_length` over the success-classified completions of an
event list (the quantity the byte counters are claimed to track). -/
def sumSuccessBytes : List Event → Nat
  | [] => 0
  | .completion t _ :: es =>
      (if t.status = .completed then t.actual_length else 0) + sumSuccessBytes es
  | .fillSubmit _ :: es => sumSuccessBytes es

/-- Output of one `print_measurement` call (u3bench.c:170-239): the updated
state together with the throughput values and host-error total that are
printed. -/
structure MeasureOut where
  state : State
  mbps : U3.Speed
  tx_mbps : U3.Speed
  rx_mbps : U3.Speed
  avg_mbps : U3.Speed
  tx_avg_mbps : U3.Speed
  rx_avg_mbps : U3.Speed
  host_errors_total : Nat
deriving Repr, DecidableEq

/-- Model of `print_measurement` (u3bench.c:170-239).  `now` is the
`CLOCK_MONOTONIC` reading (the early-return path on `clock_gettime` failure
performs no update and is not modelled).  The cumulative counters are
rolled up first (counts added, bitmasks OR-ed), the interval values are
computed, the interval-only counters are cleared, and the snapshot baseline
is advanced. -/
def print_measurement (s : State) (now : U3.Timespec) : MeasureOut :=
  let cum_dev : U3.U3loopErrors :=
    { phy_error_cnt := s.cum_dev_errors.phy_error_cnt + s.dev_errors.phy_error_cnt
      phy_errors := s.cum_dev_errors.phy_errors ||| s.dev_errors.phy_errors
      ll_error_cnt := s.cum_dev_errors.ll_error_cnt + s.dev_errors.ll_error_cnt
      ll_errors := s.cum_dev_errors.ll_errors ||| s.dev_errors.ll_errors }
  let cum_host : HostErrors :=
    { data_corrupt := s.cum_host_errors.data_corrupt + s.host_errors.data_corrupt
      error := s.cum_host_errors.error + s.host_errors.error
      length := s.cum_host_errors.length + s.host_errors.length
      stall := s.cum_host_errors.stall + s.host_errors.stall
      timeout := s.cum_host_errors.timeout + s.host_errors.timeout
      overflow := s.cum_host_errors.overflow + s.host_errors.overflow }
  let tx_bytes := s.ctrs.tx_bytes - s.measurement.tx_bytes
  let rx_bytes := s.ctrs.rx_bytes - s.measurement.rx_bytes
  let ival_usec := U3.toU64 (U3.usecDiff now s.measurement_time)
  let total_time_usec := U3.toU64 (U3.usecDiff now s.start_time)
  let mbps := if ival_usec ≠ 0 then
      U3.Speed.finite ((tx_bytes + rx_bytes) * 8 / ival_usec) else .infinity
  let tx_mbps := if ival_usec ≠ 0 then
      U3.Speed.finite (tx_bytes * 8 / ival_usec) else .infinity
  let rx_mbps := if ival_usec ≠ 0 then
      U3.Speed.finite (rx_bytes * 8 / ival_usec) else .infinity
  let avg_mbps := if total_time_usec ≠ 0 then
      U3.Speed.finite ((s.ctrs.rx_bytes + s.ctrs.tx_bytes) * 8 / total_time_usec)
    else .infinity
  let tx_avg_mbps := if total_time_usec ≠ 0 then
      U3.Speed.finite (s.ctrs.tx_bytes * 8 / total_time_usec) else .infinity
  let rx_avg_mbps := if total_time_usec ≠ 0 then
      U3.Speed.finite (s.ctrs.rx_bytes * 8 / total_time_usec) else .infinity
  let host_errors_total :=
    s.host_errors.data_corrupt + s.host_errors.error + s.host_errors.length
      + s.host_errors.stall + s.host_errors.timeout + s.host_errors.overflow
  { state :=
      { s with
        cum_dev_errors := cum_dev
        cum_host_errors := cum_host
        dev_errors := {}
        host_errors := {}
        measurement_time := now
        measurement := s.ctrs }
    mbps := mbps, tx_mbps := tx_mbps, rx_mbps := rx_mbps
    avg_mbps := avg_mbps, tx_avg_mbps := tx_avg_mbps, rx_avg_mbps := rx_avg_mbps
    host_errors_total := host_errors_total }

/-- Actions performed by the shutdown/drain block (u3bench.c:795-820). -/
inductive DrainAction where
  | cancelXfer (i : Nat)
  | handleEvents
  | freeBuffer (i : Nat)
  | freeXfer (i : Nat)
deriving Repr, DecidableEq

/-- Recogniser for buffer-free actions. -/
def DrainAction.isFreeBuffer : DrainAction → Bool
  | .freeBuffer _ => true
  | _ => false

/-- Recogniser for blocking event-processing calls. -/
def DrainAction.isHandleEvents : DrainAction → Bool
  | .handleEvents => true
  | _ => false

/-- The `while (state.active_transfers != 0) libusb_handle_events(NULL);`
loop (u3bench.c:802-804).  Each blocking event-processing call delivers one
pending completion to `transfer_cb`; after the cancellation pass the
completions still owed by the transport carry `LIBUSB_TRANSFER_CANCELLED`.
`pending` lists the completions the transport still owes; when
`pending.length = active_transfers` (one owed completion per in-flight
request) the loop guard `active_transfers != 0` coincides with `pending`
being nonempty, which is how the loop is modelled. -/
def drainWait (term : Bool) : State → List Transfer → State × List DrainAction
  | s, [] => (s, [])
  | s, t :: ts =>
      let s' := (transfer_cb s term t false).state
      let r := drainWait term s' ts
      (r.1, .handleEvents :: r.2)

/-- The complete fail3 drain/free block (u3bench.c:795-820): cancel every
transfer, block on event processing until `active_transfers` reaches zero,
then walk the pool freeing the buffer and transfer object of each slot once. -/
def drain (s : State) (term : Bool) (pending : List Transfer) (poolSize : Nat) :
    State × List DrainAction :=
  let cancels := (List.range poolSize).map DrainAction.cancelXfer
  let w := drainWait term s pending
  let frees := ((List.range poolSize).map
      (fun i => [DrainAction.freeBuffer i, DrainAction.freeXfer i])).flatten
  (w.1, cancels ++ w.2 ++ frees)

/-- Post-condition of `drain` stated by claim C2: `active_transfers` ends at
zero; each of the `poolSize` allocated buffers is freed exactly once and no
other buffer is freed; and the action trace splits into a prefix with no
buffer free (the cancel and event-wait phases, at whose end
`active_transfers` has reached zero) followed by a suffix with no further
blocking event processing. -/
def drainOk (s : State) (term : Bool) (pending : List Transfer) (poolSize : Nat) :
    Prop :=
  (drain s term pending poolSize).1.active_transfers = 0
  ∧ (∀ i, i < poolSize →
      (drain s term pending poolSize).2.count (DrainAction.freeBuffer i) = 1)
  ∧ (∀ i, poolSize ≤ i →
      (drain s term pending poolSize).2.count (DrainAction.freeBuffer i) = 0)
  ∧ (∃ n, (∀ a ∈ (drain s term pending poolSize).2.take n, a.isFreeBuffer = false)
        ∧ (∀ a ∈ (drain s term pending poolSize).2.drop n, a.isHandleEvents = false))

end U3Bench

namespace U3

/-- Constant `MAX_DEVICE_WAIT` (u3bench.c:56, u3loop.c:52): seconds to wait for
re-enumeration. -/
def MAX_DEVICE_WAIT : Nat := 10

/-- Observable actions of the re-enumeration wait loop: a one-second sleep
and a device-discovery poll (an `open_device` call). -/
inductive ReAction where
  | sleep1
  | poll (i : Nat)
deriving Repr, DecidableEq

/-- Model of the re-enumeration wait loop (u3bench.c:607-613 and the
identical u3loop.c:568-574):
`for (i=0; dev == NULL && i < MAX_DEVICE_WAIT; i++) { sleep(1); dev = open_device(...); }`.
`probe i` is the result of the `open_device` call of iteration `i`; the
returned trace records one one-second sleep before every poll.  Recursion is
on the remaining iteration budget `MAX_DEVICE_WAIT - i`, which the loop
counter makes strictly decreasing, so the loop terminates. -/
def reenumAux (probe : Nat → Option Nat) : Nat → Nat → Option Nat × List ReAction
  | _, 0 => (none, [])
  | i, fuel + 1 =>
      match probe i with
      | some d => (some d, [.sleep1, .poll i])
      | none =>
          let r := reenumAux probe (i + 1) fuel
          (r.1, .sleep1 :: .poll i :: r.2)

/-- The full wait loop starting at iteration 0 with budget `maxWait`. -/
def await_reenumeration (probe : Nat → Option Nat) (maxWait : Nat) :
    Option Nat × List ReAction :=
  reenumAux probe 0 maxWait

/-- How main disposes of the loop result (u3bench.c:615-618,
u3loop.c:576-579): a still-NULL handle is the re-enumeration-timeout failure
path ("Timeout waiting for device to re-enumerate", exit through fail1). -/
inductive ReenumOutcome where
  | timeoutFailure
  | opened (d : Nat)
deriving Repr, DecidableEq

/-- Outcome of the wait as seen by the caller. -/
def reenumResult (probe : Nat → Option Nat) (maxWait : Nat) : ReenumOutcome :=
  match (await_reenumeration probe maxWait).1 with
  | none => .timeoutFailure
  | some d => .opened d

/-- Number of device-discovery polls in an action trace. -/
def countPolls (tr : List ReAction) : Nat :=
  (tr.filter fun a => match a with | .poll _ => true | .sleep1 => false).length

/-- Pacing check: the trace consists of sleep-one-second-then-poll pairs, so
discovery is polled once per second. -/
def pacedTrace : List ReAction → Bool
  | [] => true
  | .sleep1 :: .poll _ :: tr => pacedTrace tr
  | _ => false

/-- A USB device as observed by one iteration of the `open_device` scan loop
(u3bench.c:303-350, u3loop.c:316-363): the results of the libusb calls made
for this candidate.  `serialRead` is the return value of
`libusb_get_string_descriptor_ascii` (positive byte count on success, a
negative `libusb_error` on failure, 0 for a zero-byte read); `serialBuf` is
whatever the `serial_str` stack buffer holds after that call - when the read
fails the buffer was never written, so the field is unconstrained. -/
structure Candidate where
  descOk : Bool
  idVendor : Nat
  idProduct : Nat
  openOk : Bool
  serialRead : Int
  serialBuf : String
deriving Repr, DecidableEq

/-- How the scan loop disposes of one candidate. -/
inductive CandidateFate where
  | skippedDesc
  | skippedId
  | openFailed
  | rejectedSerial
  | matched
  | serialMismatch
deriving Repr, DecidableEq

/-- One iteration of the `open_device` scan loop (u3bench.c:303-350; the
u3loop.c loop is the same code with `vid`/`pid` fixed to the PassMark
constants).  The code tests `err == LIBUSB_SUCCESS` (that is, `err == 0`)
after `libusb_get_string_descriptor_ascii`, whose successful return is the
positive string length: the "Unable to get serial number" rejection is taken
exactly on a zero return, and a negative (error) return falls through to the
serial-number comparison. -/
def candidate_fate (vid pid : Nat) (serial_number : Option String) (c : Candidate) :
    CandidateFate :=
  if !c.descOk then .skippedDesc
  else if c.idVendor ≠ vid ∨ c.idProduct ≠ pid then .skippedId
  else if !c.openOk then .openFailed
  else if c.serialRead = 0 then .rejectedSerial
  else
    match serial_number with
    | none => .matched
    | some sn => if c.serialBuf = sn then .matched else .serialMismatch

/-- The scan loop of `open_device`: the first candidate whose fate is
`matched` (the loop exits as soon as `found` becomes true). -/
def find_device (vid pid : Nat) (serial_number : Option String) :
    List Candidate → Option Candidate
  | [] => none
  | c :: cs =>
      if candidate_fate vid pid serial_number c = .matched then some c
      else find_device vid pid serial_number cs

/-- Model of `open_device` (u3bench.c:287-366, u3loop.c:300-379): scan the
device list, then claim interface 0 on the match (`claimOk` tells whether
`libusb_claim_interface` succeeds; on failure the handle is closed and NULL
returned). -/
def open_device (vid pid : Nat) (serial_number : Option String)
    (devs : List Candidate) (claimOk : Bool) : Option Candidate :=
  match find_device vid pid serial_number devs with
  | none => none
  | some c => if claimOk then some c else none

end U3

namespace U3Loop

/-- Model of `struct host_errors_t` (u3loop.c:62): per-direction transient
error counters plus the data-corruption counter. -/
structure HostErrors where
  data_corrupt : Nat := 0
  tx_stall : Nat := 0
  tx_timeout : Nat := 0
  tx_overflow : Nat := 0
  rx_stall : Nat := 0
  rx_timeout : Nat := 0
  rx_overflow : Nat := 0
deriving Repr, DecidableEq

/-- Model of `struct state_t` (u3loop.c:80). -/
structure State where
  start_time : U3.Timespec := ⟨0, 0⟩
  ops : Nat := 0
  ctrs : U3.StatCounters := {}
  host_errors : HostErrors := {}
  dev_errors : U3.U3loopErrors := {}
  cum_host_errors : HostErrors := {}
  cum_dev_errors : U3.U3loopErrors := {}
  measurement_time : U3.Timespec := ⟨0, 0⟩
  measurement : U3.StatCounters := {}
deriving Repr, DecidableEq

/-- The zero-initialised run state (`struct state_t state = { 0 }`,
u3loop.c:397). -/
def state0 : State := {}

/-- Classification of a blocking `libusb_bulk_transfer` return value as the
synchronous loop performs it (u3loop.c:660-672, 680-692): timeout, stall
(`LIBUSB_ERROR_PIPE`) and overflow are counted as transient; success passes;
every other error is fatal (`goto fail3`). -/
inductive SyncErr where
  | success
  | timeout
  | pipe
  | overflow
  | fatal
deriving Repr, DecidableEq

/-- Transport-visible events of one cycle of the synchronous loopback loop:
the classified result and reported byte count of each blocking call, and the
contents of the receive buffer after the receive call. -/
structure CycleInput where
  sendErr : SyncErr
  sendTransferred : Nat
  recvErr : SyncErr
  recvTransferred : Nat
  rxbuf : List Nat
deriving Repr, DecidableEq

/-- One cycle of the synchronous loopback main loop (u3loop.c:654-700), up
to and including `state.ops++` (the periodic measurement servicing that
follows only calls `print_measurement`, modelled separately).  Returns the
updated state and whether the cycle aborted through a fatal transport error
(`goto fail3`).  Note that `transfered` is added to the byte counter even
when the call was classified as a transient error - libusb reports partial
progress through the same out-parameter. -/
def syncCycle (s : State) (txbuf : List Nat) (cy : CycleInput) : State × Bool :=
  if cy.sendErr = .fatal then (s, true)
  else
    let s := match cy.sendErr with
      | .timeout =>
          { s with host_errors := { s.host_errors with tx_timeout := s.host_errors.tx_timeout + 1 } }
      | .pipe =>
          { s with host_errors := { s.host_errors with tx_stall := s.host_errors.tx_stall + 1 } }
      | .overflow =>
          { s with host_errors := { s.host_errors with tx_overflow := s.host_errors.tx_overflow + 1 } }
      | _ => s
    let s := { s with ctrs := { s.ctrs with tx_bytes := s.ctrs.tx_bytes + cy.sendTransferred } }
    if cy.recvErr = .fatal then (s, true)
    else
      let s := match cy.recvErr with
        | .timeout =>
            { s with host_errors := { s.host_errors with rx_timeout := s.host_errors.rx_timeout + 1 } }
        | .pipe =>
            { s with host_errors := { s.host_errors with rx_stall := s.host_errors.rx_stall + 1 } }
        | .overflow =>
            { s with host_errors := { s.host_errors with rx_overflow := s.host_errors.rx_overflow + 1 } }
        | _ => s
      let s := { s with ctrs := { s.ctrs with rx_bytes := s.ctrs.rx_bytes + cy.recvTransferred } }
      let s := if txbuf ≠ cy.rxbuf then
          { s with host_errors := { s.host_errors with data_corrupt := s.host_errors.data_corrupt + 1 } }
        else s
      ({ s with ops := s.ops + 1 }, false)

/-- Byte contribution of one synchronous cycle according to claim C8: only
success-classified calls contribute their transferred byte count. -/
def successBytes (cy : CycleInput) : Nat :=
  (if cy.sendErr = .success then cy.sendTransferred else 0)
  + (if cy.recvErr = .success then cy.recvTransferred else 0)

/-- Claim C8 as stated, at the synchronous driver: across one cycle the byte
counters advance exactly by the success-classified contributions (transient
error-classified calls contribute nothing). -/
def syncBytesMatchSuccessSum : Prop :=
  ∀ (s : State) (txbuf : List Nat) (cy : CycleInput),
    (syncCycle s txbuf cy).1.ctrs.tx_bytes + (syncCycle s txbuf cy).1.ctrs.rx_bytes
      = s.ctrs.tx_bytes + s.ctrs.rx_bytes + successBytes cy

/-- Output of one `print_measurement` call of the loopback tool
(u3loop.c:188-245). -/
structure MeasureOut where
  state : State
  rx_mbps : U3.Speed
  avg_rx_mbps : U3.Speed
  host_errors_total : Nat
deriving Repr, DecidableEq

/-- Model of `print_measurement` (u3loop.c:188-245); same shape as the
benchmark variant but with the per-direction host-error record and only the
receive-direction throughput. -/
def print_measurement (s : State) (now : U3.Timespec) : MeasureOut :=
  let cum_dev : U3.U3loopErrors :=
    { phy_error_cnt := s.cum_dev_errors.phy_error_cnt + s.dev_errors.phy_error_cnt
      phy_errors := s.cum_dev_errors.phy_errors ||| s.dev_errors.phy_errors
      ll_error_cnt := s.cum_dev_errors.ll_error_cnt + s.dev_errors.ll_error_cnt
      ll_errors := s.cum_dev_errors.ll_errors ||| s.dev_errors.ll_errors }
  let cum_host : HostErrors :=
    { data_corrupt := s.cum_host_errors.data_corrupt + s.host_errors.data_corrupt
      tx_stall := s.cum_host_errors.tx_stall + s.host_errors.tx_stall
      tx_timeout := s.cum_host_errors.tx_timeout + s.host_errors.tx_timeout
      tx_overflow := s.cum_host_errors.tx_overflow + s.host_errors.tx_overflow
      rx_stall := s.cum_host_errors.rx_stall + s.host_errors.rx_stall
      rx_timeout := s.cum_host_errors.rx_timeout + s.host_errors.rx_timeout
      rx_overflow := s.cum_host_errors.rx_overflow + s.host_errors.rx_overflow }
  let rx_bytes := s.ctrs.rx_bytes - s.measurement.rx_bytes
  let ival_usec := U3.toU64 (U3.usecDiff now s.measurement_time)
  let total_time_usec := U3.toU64 (U3.usecDiff now s.start_time)
  let rx_mbps := if ival_usec ≠ 0 then
      U3.Speed.finite (rx_bytes * 8 / ival_usec) else .infinity
  let avg_rx_mbps := if total_time_usec ≠ 0 then
      U3.Speed.finite (s.ctrs.rx_bytes * 8 / total_time_usec) else .infinity
  let host_errors_total :=
    s.host_errors.data_corrupt + s.host_errors.tx_stall + s.host_errors.tx_timeout
      + s.host_errors.tx_overflow + s.host_errors.rx_stall + s.host_errors.rx_timeout
      + s.host_errors.rx_overflow
  { state :=
      { s with
        cum_dev_errors := cum_dev
        cum_host_errors := cum_host
        dev_errors := {}
        host_errors := {}
        measurement_time := now
        measurement := s.ctrs }
    rx_mbps := rx_mbps
    avg_rx_mbps := avg_rx_mbps
    host_errors_total := host_errors_total }

end U3Loop

-- ===================================================================
-- Theorems
-- ===================================================================

/-- Helper: a natural number is a lower bound of its bitwise-or with anything
(used for the OR-accumulated device error bitmasks). -/
lemma nat_le_lor (a b : Nat) : a ≤ a ||| b := by
  induction a using Nat.binaryRec generalizing b with
  | z => exact Nat.zero_le _
  | f xa na ih =>
    conv_rhs => rw [← Nat.bit_decomp b]
    rw [Nat.lor_bit]
    rcases xa <;> rcases Nat.bodd b <;> simp [Nat.bit]
    · exact ih _
    · have := ih b.div2; omega
    · exact ih _
    · exact ih _

namespace U3Bench

set_option maxHeartbeats 2000000 in
/-- Claim C1: for every completion delivered to `transfer_cb` with success
status, the callback increments `ops` by one, adds `actual_length` to
`tx_bytes` when the endpoint direction is outbound and to `rx_bytes` when it
is inbound, and increments the interval length-mismatch counter
`host_errors.length` exactly when `actual_length` differs from the requested
length; for a completion with transport error, timeout, stall or overflow
status it instead increments only the matching interval host-error counter
(leaving `ops`, the byte counters and every other host-error counter
unchanged). -/
theorem transfer_cb_counter_updates
    (s : State) (term : Bool) (ep len act : Nat) (ok : Bool) :
    ((transfer_cb s term ⟨ep, len, act, .completed⟩ ok).state.ops = s.ops + 1
      ∧ (transfer_cb s term ⟨ep, len, act, .completed⟩ ok).state.ctrs.tx_bytes
          = (if ep &&& endpointDirMask == endpointOut then s.ctrs.tx_bytes + act
             else s.ctrs.tx_bytes)
      ∧ (transfer_cb s term ⟨ep, len, act, .completed⟩ ok).state.ctrs.rx_bytes
          = (if ep &&& endpointDirMask == endpointOut then s.ctrs.rx_bytes
             else s.ctrs.rx_bytes + act)
      ∧ (transfer_cb s term ⟨ep, len, act, .completed⟩ ok).state.host_errors
          = (if len ≠ act then
               { s.host_errors with length := s.host_errors.length + 1 }
             else s.host_errors))
    ∧ ((transfer_cb s term ⟨ep, len, act, .error⟩ ok).state.host_errors
          = { s.host_errors with error := s.host_errors.error + 1 }
      ∧ (transfer_cb s term ⟨ep, len, act, .error⟩ ok).state.ops = s.ops
      ∧ (transfer_cb s term ⟨ep, len, act, .error⟩ ok).state.ctrs = s.ctrs)
    ∧ ((transfer_cb s term ⟨ep, len, act, .timedOut⟩ ok).state.host_errors
          = { s.host_errors with timeout := s.host_errors.timeout + 1 }
      ∧ (transfer_cb s term ⟨ep, len, act, .timedOut⟩ ok).state.ops = s.ops
      ∧ (transfer_cb s term ⟨ep, len, act, .timedOut⟩ ok).state.ctrs = s.ctrs)
    ∧ ((transfer_cb s term ⟨ep, len, act, .stall⟩ ok).state.host_errors
          = { s.host_errors with stall := s.host_errors.stall + 1 }
      ∧ (transfer_cb s term ⟨ep, len, act, .stall⟩ ok).state.ops = s.ops
      ∧ (transfer_cb s term ⟨ep, len, act, .stall⟩ ok).state.ctrs = s.ctrs)
    ∧ ((transfer_cb s term ⟨ep, len, act, .overflow⟩ ok).state.host_errors
          = { s.host_errors with overflow := s.host_errors.overflow + 1 }
      ∧ (transfer_cb s term ⟨ep, len, act, .overflow⟩ ok).state.ops = s.ops
      ∧ (transfer_cb s term ⟨ep, len, act, .overflow⟩ ok).state.ctrs = s.ctrs) := by
  simp only [transfer_cb, applyStatus]
  refine ⟨⟨?_, ?_, ?_, ?_⟩, ?_, ?_, ?_, ?_⟩ <;>
    cases term <;> cases ok <;> split_ifs <;> simp_all

/-- Helper: the resubmission decision of `transfer_cb` as a boolean function
of the inputs: the transfer is resubmitted exactly when its status is not
cancelled, the `terminate` flag (as updated by the status switch, which sets
it on `LIBUSB_TRANSFER_NO_DEVICE`) is clear, and the submission succeeds. -/
lemma transfer_cb_resubmitted_eq (s : State) (term : Bool) (t : Transfer) (ok : Bool) :
    (transfer_cb s term t ok).resubmitted
      = (!(t.status == .cancelled) && !(term || (t.status == .noDevice)) && ok) := by
  obtain ⟨ep, len, act, st⟩ := t
  cases st <;> cases term <;> cases ok <;>
    simp [transfer_cb, applyStatus]

/-- Helper: `active_transfers` after `transfer_cb` is the entry value minus
one (the unconditional decrement), plus one when the transfer was
resubmitted. -/
lemma transfer_cb_active (s : State) (term : Bool) (t : Transfer) (ok : Bool) :
    (transfer_cb s term t ok).state.active_transfers
      = s.active_transfers - 1
          + (if (transfer_cb s term t ok).resubmitted then 1 else 0) := by
  obtain ⟨ep, len, act, st⟩ := t
  cases st <;> cases term <;> cases ok <;>
    simp [transfer_cb, applyStatus] <;> split_ifs <;> simp

/-- Helper: on a cancelled completion `transfer_cb` only performs the
`active_transfers` decrement and returns (no counter update, no resubmit). -/
lemma transfer_cb_cancelled (s : State) (term : Bool) (t : Transfer) (ok : Bool)
    (h : t.status = .cancelled) :
    transfer_cb s term t ok
      = { state := { s with active_transfers := s.active_transfers - 1 },
          terminate := term, resubmitted := false } := by
  simp [transfer_cb, h]

/-- Claim C3: on a cancelled completion no statistics counter is updated and
the slot is not resubmitted; if the termination flag is set when the callback
runs the slot is not resubmitted regardless of status; otherwise (status
neither cancelled nor device-removed, flag clear) the slot is resubmitted
exactly when the submission succeeds, and a submission failure leaves
`active_transfers` decremented without retry. -/
theorem transfer_cb_resubmit_policy (s : State) (term : Bool) (t : Transfer) (ok : Bool) :
    ((transfer_cb s term t ok).resubmitted
        = (!(t.status == .cancelled) && !(term || (t.status == .noDevice)) && ok))
    ∧ ((transfer_cb s term t ok).state.active_transfers
        = (if (transfer_cb s term t ok).resubmitted then s.active_transfers - 1 + 1
           else s.active_transfers - 1))
    ∧ (t.status = .cancelled →
        (transfer_cb s term t ok).state
            = { s with active_transfers := s.active_transfers - 1 }
          ∧ (transfer_cb s term t ok).terminate = term) := by
  refine ⟨transfer_cb_resubmitted_eq s term t ok, ?_, ?_⟩
  · rw [transfer_cb_active s term t ok]
    split <;> simp
  · intro h
    rw [transfer_cb_cancelled s term t ok h]
    exact ⟨rfl, rfl⟩

/-- Witness for claim C3: a concrete cancelled completion at
`active_transfers = 5` leaves the state untouched apart from the decrement
and does not resubmit. -/
theorem transfer_cb_resubmit_policy_witness :
    (transfer_cb { state0 with active_transfers := 5 } false
        ⟨0x81, 1024, 1024, .cancelled⟩ true).state
      = { state0 with active_transfers := 4 }
    ∧ (transfer_cb { state0 with active_transfers := 5 } false
        ⟨0x81, 1024, 1024, .cancelled⟩ true).terminate = false :=
  (transfer_cb_resubmit_policy { state0 with active_transfers := 5 } false
      ⟨0x81, 1024, 1024, .cancelled⟩ true).2.2 rfl

/-- Helper: over a well-formed event list, `active_transfers` never exceeds
its initial value plus the number of successful pool-fill submissions
(completions first decrement and at most restore the count). -/
lemma runEvents_active_le (es : List Event) :
    ∀ r : Run, wfEvents r es = true →
      (runEvents r es).state.active_transfers
        ≤ r.state.active_transfers + countFillOk es := by
  induction es with
  | nil => intro r _; exact Nat.le_refl _
  | cons e es ih =>
    intro r hwf
    cases e with
    | fillSubmit ok =>
      simp only [wfEvents, Bool.and_eq_true, true_and] at hwf
      have h1 := ih (stepEvent r (.fillSubmit ok)) hwf
      cases ok with
      | true =>
        simp only [runEvents, countFillOk]
        refine h1.trans ?_
        simp [stepEvent]
        omega
      | false =>
        simp only [runEvents, countFillOk]
        refine h1.trans ?_
        simp [stepEvent]
    | completion t ok =>
      simp only [wfEvents, Bool.and_eq_true, decide_eq_true_eq] at hwf
      obtain ⟨hpos, hwf'⟩ := hwf
      have h1 := ih (stepEvent r (.completion t ok)) hwf'
      simp only [runEvents, countFillOk]
      refine h1.trans ?_
      have hact : (stepEvent r (.completion t ok)).state.active_transfers
          ≤ r.state.active_transfers := by
        simp only [stepEvent]
        rw [transfer_cb_active]
        split <;> omega
      omega

/-- Counterexample for claim C4: fill the pool with 64 successful
submissions, then deliver 64 successful completions each of whose
resubmission attempts fails (`libusb_submit_transfer` returning an error
leaves the slot idle, u3bench.c:414).  The active pool empties before any
drain begins, contradicting "reaches zero only during or after drain". -/
theorem active_zero_before_drain_cex : ¬ pipelineNeverIdleBeforeDrain := by
  intro h
  exact h
    (List.replicate BUFFER_CNT (Event.completion ⟨0x81, 1024, 1024, .completed⟩ false))
    (by decide) (by decide) (by decide)

/-- Claim C4 (amended): `active_transfers` never exceeds the configured pool
size `BUFFER_CNT` and is incremented only when a submission succeeds and
decremented once per delivered completion; but it can reach zero before
drain when submissions fail, so it stays equal to the entry count across a
completion only when the status is neither cancelled nor device-removed, the
termination flag is clear, and the resubmission succeeds. -/
theorem active_transfers_discipline :
    (∀ (r : Run) (es : List Event), wfEvents r es = true →
        (runEvents r es).state.active_transfers
          ≤ r.state.active_transfers + countFillOk es)
    ∧ (∀ es : List Event, wfEvents run0 es = true → countFillOk es ≤ BUFFER_CNT →
        (runEvents run0 es).state.active_transfers ≤ BUFFER_CNT)
    ∧ (∀ (r : Run) (ok : Bool),
        (stepEvent r (.fillSubmit ok)).state.active_transfers
          = r.state.active_transfers + (if ok then 1 else 0))
    ∧ (∀ (r : Run) (t : Transfer) (ok : Bool),
        (stepEvent r (.completion t ok)).state.active_transfers
          = r.state.active_transfers - 1
              + (if (transfer_cb r.state r.terminate t ok).resubmitted then 1 else 0))
    ∧ (∀ (s : State) (term : Bool) (t : Transfer) (ok : Bool),
        (transfer_cb s term t ok).resubmitted = true → ok = true)
    ∧ (∀ (r : Run) (t : Transfer),
        r.terminate = false → t.status ≠ .cancelled → t.status ≠ .noDevice →
        (stepEvent r (.completion t true)).state.active_transfers
          = r.state.active_transfers - 1 + 1) := by
  refine ⟨fun r es h => runEvents_active_le es r h, ?_, ?_, ?_, ?_, ?_⟩
  · intro es hwf hle
    have h := runEvents_active_le es run0 hwf
    have h0 : run0.state.active_transfers = 0 := rfl
    rw [h0] at h
    omega
  · intro r ok; cases ok <;> simp [stepEvent]
  · intro r t ok; simp only [stepEvent]; rw [transfer_cb_active]
  · intro s term t ok h
    rw [transfer_cb_resubmitted_eq] at h
    cases ok
    · simp at h
    · rfl
  · intro r t hterm hc hnd
    simp only [stepEvent]
    rw [transfer_cb_active, transfer_cb_resubmitted_eq]
    simp [hterm, hc, hnd]

/-- Witness for claim C4 (amended) at a concrete trace: one successful fill
then one successful completion whose resubmission succeeds keeps
`active_transfers` at 1 and below the pool size. -/
theorem active_transfers_discipline_witness :
    (runEvents run0 [Event.fillSubmit true,
        Event.completion ⟨0x81, 1024, 1024, .completed⟩ true]).state.active_transfers
      ≤ BUFFER_CNT :=
  active_transfers_discipline.2.1
    [Event.fillSubmit true, Event.completion ⟨0x81, 1024, 1024, .completed⟩ true]
    (by decide) (by decide)

end U3Bench

namespace U3Bench

/-- Helper: the event-wait phase of the drain delivers the owed (cancelled)
completions one per blocking call; when the transport owes exactly one
completion per in-flight request, `active_transfers` ends at zero. -/
lemma drainWait_active (term : Bool) :
    ∀ (pending : List Transfer) (s : State),
      (∀ t ∈ pending, t.status = .cancelled) →
      pending.length = s.active_transfers →
      (drainWait term s pending).1.active_transfers = 0 := by
  intro pending
  induction pending with
  | nil =>
    intro s _ hlen
    simpa [drainWait] using hlen.symm
  | cons t ts ih =>
    intro s hstat hlen
    have ht : t.status = .cancelled := hstat t (List.mem_cons_self t ts)
    have hts : ∀ u ∈ ts, u.status = .cancelled :=
      fun u hu => hstat u (List.mem_cons_of_mem t hu)
    simp only [drainWait]
    rw [transfer_cb_cancelled s term t false ht]
    refine ih _ hts ?_
    show ts.length = s.active_transfers - 1
    simp only [List.length_cons] at hlen
    omega

/-- Helper: the event-wait phase emits exactly one `handleEvents` action per
owed completion and nothing else. -/
lemma drainWait_trace (term : Bool) :
    ∀ (pending : List Transfer) (s : State),
      (drainWait term s pending).2
        = List.replicate pending.length DrainAction.handleEvents := by
  intro pending
  induction pending with
  | nil => intro s; rfl
  | cons t ts ih =>
    intro s
    simp only [drainWait, List.length_cons, List.replicate_succ]
    rw [ih]

/-- Helper: the free pass of one slot frees buffer `i` exactly when the slot is
slot `i`. -/
lemma count_free_pair (n i : Nat) :
    ([DrainAction.freeBuffer n, DrainAction.freeXfer n].count (DrainAction.freeBuffer i))
      = if i = n then 1 else 0 := by
  by_cases h : i = n
  · subst h; simp
  · simp [List.count_cons, h]

/-- Helper: in the buffer-free pass each buffer index below the pool size is
freed exactly once, all others never. -/
lemma frees_count (n i : Nat) :
    (((List.range n).map
        (fun j => [DrainAction.freeBuffer j, DrainAction.freeXfer j])).flatten).count
        (DrainAction.freeBuffer i)
      = if i < n then 1 else 0 := by
  induction n with
  | zero => simp
  | succ n ih =>
    rw [List.range_succ]
    simp only [List.map_append, List.flatten_append, List.count_append, ih,
      List.map_cons, List.map_nil, List.flatten_cons, List.flatten_nil,
      List.append_nil]
    rw [count_free_pair]
    split_ifs <;> omega

/-- Helper: no free action appears among the cancel actions. -/
lemma cancels_count (n i : Nat) :
    (((List.range n).map DrainAction.cancelXfer).count (DrainAction.freeBuffer i)) = 0 := by
  rw [List.count_eq_zero]
  intro hmem
  obtain ⟨j, _, hj⟩ := List.mem_map.mp hmem
  exact absurd hj (by simp)

/-- Helper: no free action appears among the event-wait actions. -/
lemma replicate_handle_count (n i : Nat) :
    ((List.replicate n DrainAction.handleEvents).count (DrainAction.freeBuffer i)) = 0 := by
  rw [List.count_eq_zero]
  intro hmem
  have := List.eq_of_mem_replicate hmem
  exact absurd this (by simp)

/-- Claim C2: after a drain run in which the transport owes one (cancelled)
completion per in-flight request, `active_transfers` is zero, each of the
buffers of the pool is freed exactly once (no double free, no leak), and no
buffer is freed before the event-wait phase (which ends with
`active_transfers = 0`) has completed. -/
theorem drain_postcondition (s : State) (term : Bool) (pending : List Transfer)
    (poolSize : Nat)
    (hstat : ∀ t ∈ pending, t.status = .cancelled)
    (hlen : pending.length = s.active_transfers) :
    drainOk s term pending poolSize := by
  have htr := drainWait_trace term pending s
  have hsplit : (drain s term pending poolSize).2
      = (((List.range poolSize).map DrainAction.cancelXfer)
          ++ (drainWait term s pending).2)
        ++ (((List.range poolSize).map
            (fun i => [DrainAction.freeBuffer i, DrainAction.freeXfer i])).flatten) := by
    simp [drain]
  refine ⟨?_, ?_, ?_, ?_⟩
  · exact drainWait_active term pending s hstat hlen
  · intro i hi
    rw [hsplit]
    simp only [List.count_append, htr, cancels_count, replicate_handle_count,
      frees_count]
    simp [hi]
  · intro i hi
    rw [hsplit]
    simp only [List.count_append, htr, cancels_count, replicate_handle_count,
      frees_count]
    have : ¬ i < poolSize := by omega
    simp [this]
  · refine ⟨(((List.range poolSize).map DrainAction.cancelXfer)
        ++ (drainWait term s pending).2).length, ?_, ?_⟩
    · intro a ha
      rw [hsplit, List.take_left] at ha
      rcases List.mem_append.mp ha with h | h
      · obtain ⟨j, _, hj⟩ := List.mem_map.mp h
        subst hj
        rfl
      · rw [htr] at h
        have := List.eq_of_mem_replicate h
        subst this
        rfl
    · intro a ha
      rw [hsplit, List.drop_left] at ha
      have h' : ∃ j, j < poolSize
          ∧ (a = DrainAction.freeBuffer j ∨ a = DrainAction.freeXfer j) := by
        simpa using ha
      obtain ⟨j, _, h1 | h1⟩ := h'
      · subst h1; rfl
      · subst h1; rfl

/-- Witness for claim C2: a concrete drain of the 64-slot pool with three
requests still in flight (three owed cancelled completions). -/
theorem drain_postcondition_witness :
    drainOk { state0 with active_transfers := 3 } true
      (List.replicate 3 ⟨0x81, 1024, 0, XferStatus.cancelled⟩) BUFFER_CNT :=
  drain_postcondition { state0 with active_transfers := 3 } true
    (List.replicate 3 ⟨0x81, 1024, 0, XferStatus.cancelled⟩) BUFFER_CNT
    (by decide) (by decide)

end U3Bench

/-- Claim C5: immediately after a measurement snapshot all interval-only
host and device error counters are zero, and every cumulative host-error
counter, cumulative device error count, and cumulative device error bitmask
is at least its value from before the snapshot, in both tools. -/
theorem measurement_resets_interval_and_monotone
    (sb : U3Bench.State) (sl : U3Loop.State) (nb nl : U3.Timespec) :
    ((U3Bench.print_measurement sb nb).state.host_errors = U3Bench.hostErrorsZero
      ∧ (U3Bench.print_measurement sb nb).state.dev_errors = U3Bench.devErrorsZero
      ∧ sb.cum_host_errors.data_corrupt
          ≤ (U3Bench.print_measurement sb nb).state.cum_host_errors.data_corrupt
      ∧ sb.cum_host_errors.error
          ≤ (U3Bench.print_measurement sb nb).state.cum_host_errors.error
      ∧ sb.cum_host_errors.length
          ≤ (U3Bench.print_measurement sb nb).state.cum_host_errors.length
      ∧ sb.cum_host_errors.stall
          ≤ (U3Bench.print_measurement sb nb).state.cum_host_errors.stall
      ∧ sb.cum_host_errors.timeout
          ≤ (U3Bench.print_measurement sb nb).state.cum_host_errors.timeout
      ∧ sb.cum_host_errors.overflow
          ≤ (U3Bench.print_measurement sb nb).state.cum_host_errors.overflow
      ∧ sb.cum_dev_errors.phy_error_cnt
          ≤ (U3Bench.print_measurement sb nb).state.cum_dev_errors.phy_error_cnt
      ∧ sb.cum_dev_errors.ll_error_cnt
          ≤ (U3Bench.print_measurement sb nb).state.cum_dev_errors.ll_error_cnt
      ∧ sb.cum_dev_errors.phy_errors
          ≤ (U3Bench.print_measurement sb nb).state.cum_dev_errors.phy_errors
      ∧ sb.cum_dev_errors.ll_errors
          ≤ (U3Bench.print_measurement sb nb).state.cum_dev_errors.ll_errors)
    ∧ ((U3Loop.print_measurement sl nl).state.host_errors = ({} : U3Loop.HostErrors)
      ∧ (U3Loop.print_measurement sl nl).state.dev_errors = ({} : U3.U3loopErrors)
      ∧ sl.cum_host_errors.data_corrupt
          ≤ (U3Loop.print_measurement sl nl).state.cum_host_errors.data_corrupt
      ∧ sl.cum_host_errors.tx_stall
          ≤ (U3Loop.print_measurement sl nl).state.cum_host_errors.tx_stall
      ∧ sl.cum_host_errors.tx_timeout
          ≤ (U3Loop.print_measurement sl nl).state.cum_host_errors.tx_timeout
      ∧ sl.cum_host_errors.tx_overflow
          ≤ (U3Loop.print_measurement sl nl).state.cum_host_errors.tx_overflow
      ∧ sl.cum_host_errors.rx_stall
          ≤ (U3Loop.print_measurement sl nl).state.cum_host_errors.rx_stall
      ∧ sl.cum_host_errors.rx_timeout
          ≤ (U3Loop.print_measurement sl nl).state.cum_host_errors.rx_timeout
      ∧ sl.cum_host_errors.rx_overflow
          ≤ (U3Loop.print_measurement sl nl).state.cum_host_errors.rx_overflow
      ∧ sl.cum_dev_errors.phy_error_cnt
          ≤ (U3Loop.print_measurement sl nl).state.cum_dev_errors.phy_error_cnt
      ∧ sl.cum_dev_errors.ll_error_cnt
          ≤ (U3Loop.print_measurement sl nl).state.cum_dev_errors.ll_error_cnt
      ∧ sl.cum_dev_errors.phy_errors
          ≤ (U3Loop.print_measurement sl nl).state.cum_dev_errors.phy_errors
      ∧ sl.cum_dev_errors.ll_errors
          ≤ (U3Loop.print_measurement sl nl).state.cum_dev_errors.ll_errors) :=
  ⟨⟨rfl, rfl,
    Nat.le_add_right _ _, Nat.le_add_right _ _, Nat.le_add_right _ _,
    Nat.le_add_right _ _, Nat.le_add_right _ _, Nat.le_add_right _ _,
    Nat.le_add_right _ _, Nat.le_add_right _ _,
    nat_le_lor _ _, nat_le_lor _ _⟩,
   ⟨rfl, rfl,
    Nat.le_add_right _ _, Nat.le_add_right _ _, Nat.le_add_right _ _,
    Nat.le_add_right _ _, Nat.le_add_right _ _, Nat.le_add_right _ _,
    Nat.le_add_right _ _, Nat.le_add_right _ _, Nat.le_add_right _ _,
    nat_le_lor _ _, nat_le_lor _ _⟩⟩

/-- Claim C7: a snapshot whose elapsed interval is zero microseconds reports
the positive-infinity sentinel for the instantaneous throughput values, and
the integer division producing an interval throughput executes only under
the hypothesis that the elapsed interval is nonzero (in which case the
reported value is exactly the guarded quotient), in both tools. -/
theorem zero_interval_reports_infinity
    (sb : U3Bench.State) (sl : U3Loop.State) (nb nl : U3.Timespec) :
    (U3.toU64 (U3.usecDiff nb sb.measurement_time) = 0 →
        (U3Bench.print_measurement sb nb).mbps = U3.Speed.infinity
      ∧ (U3Bench.print_measurement sb nb).tx_mbps = U3.Speed.infinity
      ∧ (U3Bench.print_measurement sb nb).rx_mbps = U3.Speed.infinity)
    ∧ (U3.toU64 (U3.usecDiff nb sb.measurement_time) ≠ 0 →
        (U3Bench.print_measurement sb nb).mbps
          = U3.Speed.finite (((sb.ctrs.tx_bytes - sb.measurement.tx_bytes)
                + (sb.ctrs.rx_bytes - sb.measurement.rx_bytes)) * 8
              / U3.toU64 (U3.usecDiff nb sb.measurement_time)))
    ∧ (U3.toU64 (U3.usecDiff nl sl.measurement_time) = 0 →
        (U3Loop.print_measurement sl nl).rx_mbps = U3.Speed.infinity)
    ∧ (U3.toU64 (U3.usecDiff nl sl.measurement_time) ≠ 0 →
        (U3Loop.print_measurement sl nl).rx_mbps
          = U3.Speed.finite ((sl.ctrs.rx_bytes - sl.measurement.rx_bytes) * 8
              / U3.toU64 (U3.usecDiff nl sl.measurement_time))) := by
  refine ⟨?_, ?_, ?_, ?_⟩
  · intro h
    refine ⟨?_, ?_, ?_⟩ <;> simp [U3Bench.print_measurement, h]
  · intro h
    simp [U3Bench.print_measurement, h]
  · intro h
    simp [U3Loop.print_measurement, h]
  · intro h
    simp [U3Loop.print_measurement, h]

/-- Witness for claim C7: with the snapshot taken at exactly the previous
measurement time (zero elapsed microseconds) both tools report infinity, and
with a 125000-microsecond interval the benchmark reports the finite guarded
quotient. -/
theorem zero_interval_reports_infinity_witness :
    ((U3Bench.print_measurement U3Bench.state0 ⟨0, 0⟩).mbps = U3.Speed.infinity
      ∧ (U3Bench.print_measurement U3Bench.state0 ⟨0, 0⟩).tx_mbps = U3.Speed.infinity
      ∧ (U3Bench.print_measurement U3Bench.state0 ⟨0, 0⟩).rx_mbps = U3.Speed.infinity)
    ∧ (U3Loop.print_measurement U3Loop.state0 ⟨0, 0⟩).rx_mbps = U3.Speed.infinity
    ∧ (U3Bench.print_measurement
          { U3Bench.state0 with ctrs := { tx_bytes := 0, rx_bytes := 1000000 } }
          ⟨0, 125000000⟩).mbps
        = U3.Speed.finite 64 :=
  ⟨(zero_interval_reports_infinity U3Bench.state0 U3Loop.state0 ⟨0, 0⟩ ⟨0, 0⟩).1
      (by decide),
   (zero_interval_reports_infinity U3Bench.state0 U3Loop.state0 ⟨0, 0⟩ ⟨0, 0⟩).2.2.1
      (by decide),
   by
    rw [(zero_interval_reports_infinity
        { U3Bench.state0 with ctrs := { tx_bytes := 0, rx_bytes := 1000000 } }
        U3Loop.state0 ⟨0, 125000000⟩ ⟨0, 0⟩).2.1 (by decide)]
    decide⟩

namespace U3

/-- Helper: the wait loop performs at most `fuel` discovery polls. -/
lemma reenumAux_polls_le (probe : Nat → Option Nat) :
    ∀ (fuel i : Nat), countPolls (reenumAux probe i fuel).2 ≤ fuel := by
  intro fuel
  induction fuel with
  | zero => intro i; simp [reenumAux, countPolls]
  | succ fuel ih =>
    intro i
    simp only [reenumAux]
    cases h : probe i with
    | some d => simp [countPolls, List.filter]
    | none =>
      simp only [countPolls, List.filter, List.length_cons] at *
      have := ih (i + 1)
      omega

/-- Helper: every discovery poll is preceded by exactly one one-second
sleep. -/
lemma reenumAux_paced (probe : Nat → Option Nat) :
    ∀ (fuel i : Nat), pacedTrace (reenumAux probe i fuel).2 = true := by
  intro fuel
  induction fuel with
  | zero => intro i; rfl
  | succ fuel ih =>
    intro i
    simp only [reenumAux]
    cases h : probe i with
    | some d => rfl
    | none =>
      simp only [pacedTrace]
      exact ih (i + 1)

/-- Helper: if the device stays absent for the whole remaining budget the
loop returns NULL after spending every poll. -/
lemma reenumAux_all_none (probe : Nat → Option Nat) :
    ∀ (fuel i : Nat), (∀ j, i ≤ j → j < i + fuel → probe j = none) →
      (reenumAux probe i fuel).1 = none
      ∧ countPolls (reenumAux probe i fuel).2 = fuel := by
  intro fuel
  induction fuel with
  | zero => intro i _; exact ⟨rfl, rfl⟩
  | succ fuel ih =>
    intro i habs
    have h0 : probe i = none := habs i (Nat.le_refl i) (by omega)
    have hrest : ∀ j, i + 1 ≤ j → j < (i + 1) + fuel → probe j = none :=
      fun j h1 h2 => habs j (by omega) (by omega)
    have hr := ih (i + 1) hrest
    simp only [reenumAux, h0]
    refine ⟨hr.1, ?_⟩
    simp only [countPolls, List.filter, List.length_cons] at *
    omega

/-- Claim C6: the re-enumeration wait with the default 10-second budget
polls device discovery at most 10 times, pacing each poll behind a
one-second sleep; if the device is absent for the entire budget the loop
terminates after exactly 10 polls and the caller takes the
re-enumeration-timeout failure path instead of polling forever. -/
theorem reenum_wait_bounded_timeout (probe : Nat → Option Nat) :
    (∀ maxWait : Nat,
        countPolls (await_reenumeration probe maxWait).2 ≤ maxWait
      ∧ pacedTrace (await_reenumeration probe maxWait).2 = true)
    ∧ ((∀ i, i < MAX_DEVICE_WAIT → probe i = none) →
        reenumResult probe MAX_DEVICE_WAIT = ReenumOutcome.timeoutFailure
      ∧ countPolls (await_reenumeration probe MAX_DEVICE_WAIT).2
          = MAX_DEVICE_WAIT) := by
  constructor
  · intro maxWait
    exact ⟨reenumAux_polls_le probe maxWait 0, reenumAux_paced probe maxWait 0⟩
  · intro habs
    have h := reenumAux_all_none probe MAX_DEVICE_WAIT 0
      (fun j _ h2 => habs j (by simpa using h2))
    refine ⟨?_, h.2⟩
    simp only [reenumResult, await_reenumeration, h.1]

/-- Witness for claim C6: a probe that never finds the device (absent for
the whole budget, e.g. for 11 seconds) makes the default wait report the
timeout failure after exactly 10 polls. -/
theorem reenum_wait_bounded_timeout_witness :
    reenumResult (fun _ => none) MAX_DEVICE_WAIT = ReenumOutcome.timeoutFailure
    ∧ countPolls (await_reenumeration (fun _ => none) MAX_DEVICE_WAIT).2
        = MAX_DEVICE_WAIT :=
  (reenum_wait_bounded_timeout (fun _ => none)).2 (fun _ _ => rfl)

end U3

namespace U3Bench

/-- Helper: one callback run advances `tx_bytes + rx_bytes` by
`actual_length` exactly when the status is success, and by nothing
otherwise. -/
lemma transfer_cb_bytes (s : State) (term : Bool) (t : Transfer) (ok : Bool) :
    (transfer_cb s term t ok).state.ctrs.tx_bytes
        + (transfer_cb s term t ok).state.ctrs.rx_bytes
      = s.ctrs.tx_bytes + s.ctrs.rx_bytes
          + (if t.status = .completed then t.actual_length else 0) := by
  obtain ⟨ep, len, act, st⟩ := t
  cases st <;> cases term <;> cases ok <;>
    simp [transfer_cb, applyStatus] <;> split_ifs <;> simp <;> omega

/-- Helper: one callback run never decreases either byte counter. -/
lemma transfer_cb_bytes_mono (s : State) (term : Bool) (t : Transfer) (ok : Bool) :
    s.ctrs.tx_bytes ≤ (transfer_cb s term t ok).state.ctrs.tx_bytes
    ∧ s.ctrs.rx_bytes ≤ (transfer_cb s term t ok).state.ctrs.rx_bytes := by
  obtain ⟨ep, len, act, st⟩ := t
  cases st <;> cases term <;> cases ok <;>
    simp [transfer_cb, applyStatus] <;> split_ifs <;> simp

/-- Helper: over any event list the byte-counter total advances by exactly
the sum of `actual_length` over success-classified completions. -/
lemma runEvents_bytes (es : List Event) :
    ∀ r : Run,
      (runEvents r es).state.ctrs.tx_bytes + (runEvents r es).state.ctrs.rx_bytes
        = r.state.ctrs.tx_bytes + r.state.ctrs.rx_bytes + sumSuccessBytes es := by
  induction es with
  | nil => intro r; rfl
  | cons e es ih =>
    intro r
    cases e with
    | fillSubmit ok =>
      simp only [runEvents, sumSuccessBytes]
      rw [ih]
      cases ok <;> simp [stepEvent]
    | completion t ok =>
      simp only [runEvents, sumSuccessBytes]
      rw [ih]
      simp only [stepEvent]
      rw [transfer_cb_bytes]
      omega

end U3Bench

/-- Counterexample for claim C8: in the synchronous driver a send classified
as a timeout still adds the transport-reported partial byte count to
`tx_bytes` (u3loop.c:673 runs after the classification at u3loop.c:660-672),
so a cycle whose send times out after 512 bytes advances the byte counters
by 512 while the success-classified sum is 0. -/
theorem sync_bytes_success_sum_cex : ¬ U3Loop.syncBytesMatchSuccessSum := by
  intro h
  exact absurd
    (h U3Loop.state0 []
      { sendErr := .timeout, sendTransferred := 512,
        recvErr := .success, recvTransferred := 0, rxbuf := [] })
    (by decide)

/-- Claim C8 (amended): in the asynchronous pipeline `tx_bytes + rx_bytes`
equals the sum of `actual_length` over success-classified completions, and
the counters never decrease; in the synchronous driver each non-fatal cycle
adds the transport-reported transferred byte count of each blocking call -
including calls classified as timeout/stall/overflow, which can report
partial progress - and the counters never decrease. -/
theorem byte_counters_accounting :
    (∀ (r : U3Bench.Run) (es : List U3Bench.Event),
        (U3Bench.runEvents r es).state.ctrs.tx_bytes
            + (U3Bench.runEvents r es).state.ctrs.rx_bytes
          = r.state.ctrs.tx_bytes + r.state.ctrs.rx_bytes
              + U3Bench.sumSuccessBytes es)
    ∧ (∀ (r : U3Bench.Run) (e : U3Bench.Event),
        r.state.ctrs.tx_bytes ≤ (U3Bench.stepEvent r e).state.ctrs.tx_bytes
        ∧ r.state.ctrs.rx_bytes ≤ (U3Bench.stepEvent r e).state.ctrs.rx_bytes)
    ∧ (∀ (s : U3Loop.State) (txbuf : List Nat) (cy : U3Loop.CycleInput),
        cy.sendErr ≠ .fatal → cy.recvErr ≠ .fatal →
        (U3Loop.syncCycle s txbuf cy).1.ctrs.tx_bytes
            = s.ctrs.tx_bytes + cy.sendTransferred
        ∧ (U3Loop.syncCycle s txbuf cy).1.ctrs.rx_bytes
            = s.ctrs.rx_bytes + cy.recvTransferred)
    ∧ (∀ (s : U3Loop.State) (txbuf : List Nat) (cy : U3Loop.CycleInput),
        s.ctrs.tx_bytes ≤ (U3Loop.syncCycle s txbuf cy).1.ctrs.tx_bytes
        ∧ s.ctrs.rx_bytes ≤ (U3Loop.syncCycle s txbuf cy).1.ctrs.rx_bytes) := by
  refine ⟨fun r es => U3Bench.runEvents_bytes es r, ?_, ?_, ?_⟩
  · intro r e
    cases e with
    | fillSubmit ok =>
      cases ok <;> simp [U3Bench.stepEvent]
    | completion t ok =>
      simpa [U3Bench.stepEvent] using
        U3Bench.transfer_cb_bytes_mono r.state r.terminate t ok
  · intro s txbuf cy hs hr
    obtain ⟨se, st, re, rt, rx⟩ := cy
    cases se <;> cases re <;>
      simp_all [U3Loop.syncCycle] <;> split_ifs <;> simp
  · intro s txbuf cy
    obtain ⟨se, st, re, rt, rx⟩ := cy
    cases se <;> cases re <;>
      simp [U3Loop.syncCycle] <;> split_ifs <;> simp

/-- Witness for claim C8 (amended) at a concrete synchronous cycle: both
calls succeed transferring 1024 bytes each, and both byte counters advance
by exactly those amounts. -/
theorem byte_counters_accounting_witness :
    (U3Loop.syncCycle U3Loop.state0 []
        { sendErr := .success, sendTransferred := 1024,
          recvErr := .success, recvTransferred := 1024, rxbuf := [] }).1.ctrs.tx_bytes
      = U3Loop.state0.ctrs.tx_bytes + 1024
    ∧ (U3Loop.syncCycle U3Loop.state0 []
        { sendErr := .success, sendTransferred := 1024,
          recvErr := .success, recvTransferred := 1024, rxbuf := [] }).1.ctrs.rx_bytes
      = U3Loop.state0.ctrs.rx_bytes + 1024 :=
  byte_counters_accounting.2.2.1 U3Loop.state0 []
    { sendErr := .success, sendTransferred := 1024,
      recvErr := .success, recvTransferred := 1024, rxbuf := [] }
    (by decide) (by decide)

/-- Claim C9: in a synchronous loopback cycle where both blocking calls
complete successfully, the data-corruption counter is untouched when the
received buffer is byte-for-byte identical to the sent buffer and is
incremented exactly once when it differs, and `ops` is incremented once per
cycle either way (and the cycle does not abort). -/
theorem sync_cycle_integrity (s : U3Loop.State) (txbuf : List Nat)
    (cy : U3Loop.CycleInput)
    (hs : cy.sendErr = .success) (hr : cy.recvErr = .success) :
    (U3Loop.syncCycle s txbuf cy).2 = false
    ∧ (U3Loop.syncCycle s txbuf cy).1.ops = s.ops + 1
    ∧ (U3Loop.syncCycle s txbuf cy).1.host_errors.data_corrupt
        = (if txbuf = cy.rxbuf then s.host_errors.data_corrupt
           else s.host_errors.data_corrupt + 1) := by
  obtain ⟨se, st, re, rt, rx⟩ := cy
  simp only at hs hr
  subst hs
  subst hr
  simp only [U3Loop.syncCycle]
  refine ⟨by simp, ?_, ?_⟩ <;> split_ifs <;> simp_all

/-- Witness for claim C9: a successful cycle with an 8-byte sentinel-filled
buffer echoed back unchanged does not abort and counts one operation. -/
theorem sync_cycle_integrity_witness :
    (U3Loop.syncCycle U3Loop.state0 (List.replicate 8 0xC5)
        { sendErr := .success, sendTransferred := 8,
          recvErr := .success, recvTransferred := 8,
          rxbuf := List.replicate 8 0xC5 }).2 = false
    ∧ (U3Loop.syncCycle U3Loop.state0 (List.replicate 8 0xC5)
        { sendErr := .success, sendTransferred := 8,
          recvErr := .success, recvTransferred := 8,
          rxbuf := List.replicate 8 0xC5 }).1.ops = 1 :=
  ⟨(sync_cycle_integrity U3Loop.state0 (List.replicate 8 0xC5)
      { sendErr := .success, sendTransferred := 8,
        recvErr := .success, recvTransferred := 8,
        rxbuf := List.replicate 8 0xC5 } rfl rfl).1,
   (sync_cycle_integrity U3Loop.state0 (List.replicate 8 0xC5)
      { sendErr := .success, sendTransferred := 8,
        recvErr := .success, recvTransferred := 8,
        rxbuf := List.replicate 8 0xC5 } rfl rfl).2.1⟩

namespace U3

/-- Helper: the serial-rejection branch of the scan loop is taken exactly
when the preceding checks pass and the serial-descriptor read returned 0. -/
lemma candidate_fate_rejected_iff (vid pid : Nat) (sn : Option String)
    (c : Candidate) :
    candidate_fate vid pid sn c = .rejectedSerial
      ↔ (c.descOk = true ∧ c.idVendor = vid ∧ c.idProduct = pid
          ∧ c.openOk = true ∧ c.serialRead = 0) := by
  unfold candidate_fate
  split_ifs with h1 h2 h3 h4
  · simp_all
  · constructor
    · intro hc; simp at hc
    · rintro ⟨-, hv, hp, -, -⟩
      rcases h2 with h | h
      · exact absurd hv h
      · exact absurd hp h
  · simp_all
  · have hv := not_not.mp (not_or.mp h2).1
    have hp := not_not.mp (not_or.mp h2).2
    simp only [true_iff]
    exact ⟨by simpa using h1, hv, hp, by simpa using h3, h4⟩
  · cases sn with
    | none =>
      constructor
      · intro hc; simp at hc
      · rintro ⟨-, -, -, -, h0⟩; exact absurd h0 h4
    | some snv =>
      show (if c.serialBuf = snv then CandidateFate.matched
          else CandidateFate.serialMismatch) = CandidateFate.rejectedSerial ↔ _
      by_cases hb : c.serialBuf = snv
      · rw [if_pos hb]
        constructor
        · intro hc; simp at hc
        · rintro ⟨-, -, -, -, h0⟩; exact absurd h0 h4
      · rw [if_neg hb]
        constructor
        · intro hc; simp at hc
        · rintro ⟨-, -, -, -, h0⟩; exact absurd h0 h4

/-- Claim C10: in the `open_device` scan the candidate is rejected for an
unreadable serial number exactly when `libusb_get_string_descriptor_ascii`
returns the success code 0 (zero bytes); a candidate whose read returns a
negative transport error is never rejected at that branch, and with no
serial-number filter it is matched unconditionally (for any leftover
`serial_str` buffer contents), also as the device the scan loop returns. -/
theorem open_device_serial_check (vid pid : Nat) (sn : Option String)
    (c : Candidate) :
    (candidate_fate vid pid sn c = .rejectedSerial
        ↔ (c.descOk = true ∧ c.idVendor = vid ∧ c.idProduct = pid
            ∧ c.openOk = true ∧ c.serialRead = 0))
    ∧ (c.serialRead < 0 → candidate_fate vid pid sn c ≠ .rejectedSerial)
    ∧ (c.descOk = true → c.idVendor = vid → c.idProduct = pid →
        c.openOk = true → c.serialRead < 0 →
        candidate_fate vid pid none c = .matched
        ∧ ∀ cs : List Candidate, find_device vid pid none (c :: cs) = some c) := by
  refine ⟨candidate_fate_rejected_iff vid pid sn c, ?_, ?_⟩
  · intro hneg hc
    have h0 := ((candidate_fate_rejected_iff vid pid sn c).mp hc).2.2.2.2
    omega
  · intro hdesc hv hp hopen hneg
    have hnz : ¬ c.serialRead = 0 := by omega
    have hfate : candidate_fate vid pid none c = .matched := by
      unfold candidate_fate
      rw [if_neg (by simp [hdesc]), if_neg (by simp [hv, hp]),
        if_neg (by simp [hopen]), if_neg hnz]
    exact ⟨hfate, fun cs => by simp [find_device, hfate]⟩

/-- Witness for claim C10: a concrete candidate whose serial read fails with
`LIBUSB_ERROR_PIPE` (-9), leaving garbage in the buffer, is still matched
when no serial filter is given. -/
theorem open_device_serial_check_witness :
    candidate_fate 0x0403 0xff0b none
        { descOk := true, idVendor := 0x0403, idProduct := 0xff0b,
          openOk := true, serialRead := -9, serialBuf := "garbage" }
      = CandidateFate.matched :=
  ((open_device_serial_check 0x0403 0xff0b none
      { descOk := true, idVendor := 0x0403, idProduct := 0xff0b,
        openOk := true, serialRead := -9, serialBuf := "garbage" }).2.2
    rfl rfl rfl rfl (by decide)).1

end U3
